import Mathlib

/-!
Verification development for the A/B-test statistics engine of
`abtestcalculator`.  The TypeScript source is shallowly embedded over the
real numbers: every numeric function is translated from its source file
(`src/utils/statisticalCalculations.ts`, `SignificanceTestCalculator`,
`SequentialTestingCalculator`, `PowerAnalysisCalculator`,
`ExperimentDesigner`).  Idealized real semantics (total division, `Real.sqrt`,
`Real.log`, `Real.exp`) is used for algebraic claims; where a claim is about
JavaScript non-finite behaviour (`NaN`, `±Infinity`), the relevant function is
additionally embedded over `JSNum`, a four-constructor model of the finite /
infinite / NaN classes of IEEE doubles, with the JavaScript propagation rules
spelled out case by case.
-/

noncomputable section

namespace ABTest

/-- Model of a JavaScript number as seen through its finiteness class:
a finite real, `+Infinity`, `-Infinity`, or `NaN`. -/
inductive JSNum where
  | fin : ℝ → JSNum
  | posInf : JSNum
  | negInf : JSNum
  | nan : JSNum

namespace JSNum

/-- JavaScript `+` on the finiteness classes of doubles. -/
def add : JSNum → JSNum → JSNum
  | nan, _ => nan
  | _, nan => nan
  | posInf, negInf => nan
  | negInf, posInf => nan
  | posInf, _ => posInf
  | _, posInf => posInf
  | negInf, _ => negInf
  | _, negInf => negInf
  | fin a, fin b => fin (a + b)

/-- JavaScript `*` on the finiteness classes of doubles
(`0 * Infinity = NaN`). -/
def mul : JSNum → JSNum → JSNum
  | nan, _ => nan
  | _, nan => nan
  | fin a, fin b => fin (a * b)
  | fin a, posInf => if a = 0 then nan else if 0 < a then posInf else negInf
  | fin a, negInf => if a = 0 then nan else if 0 < a then negInf else posInf
  | posInf, fin b => if b = 0 then nan else if 0 < b then posInf else negInf
  | negInf, fin b => if b = 0 then nan else if 0 < b then negInf else posInf
  | posInf, posInf => posInf
  | posInf, negInf => negInf
  | negInf, posInf => negInf
  | negInf, negInf => posInf

/-- JavaScript `/` on the finiteness classes of doubles
(`0/0 = NaN`, `x/0 = ±Infinity` for finite `x ≠ 0`, `Inf/Inf = NaN`). -/
def div : JSNum → JSNum → JSNum
  | nan, _ => nan
  | _, nan => nan
  | fin a, fin b =>
      if b = 0 then (if a = 0 then nan else if 0 < a then posInf else negInf)
      else fin (a / b)
  | fin _, posInf => fin 0
  | fin _, negInf => fin 0
  | posInf, fin b => if 0 ≤ b then posInf else negInf
  | negInf, fin b => if 0 ≤ b then negInf else posInf
  | posInf, posInf => nan
  | posInf, negInf => nan
  | negInf, posInf => nan
  | negInf, negInf => nan

/-- JavaScript unary minus on the finiteness classes of doubles. -/
def neg : JSNum → JSNum
  | nan => nan
  | posInf => negInf
  | negInf => posInf
  | fin a => fin (-a)

/-- JavaScript `Math.sqrt` (`sqrt` of a negative number or `-Infinity`
is `NaN`). -/
def sqrt : JSNum → JSNum
  | nan => nan
  | posInf => posInf
  | negInf => nan
  | fin a => if a < 0 then nan else fin (Real.sqrt a)

end JSNum

/-- JavaScript `Math.log` applied to a finite real
(`log` of a negative number is `NaN`, `log 0 = -Infinity`). -/
def jsLog (x : ℝ) : JSNum :=
  if x < 0 then .nan else if x = 0 then .negInf else .fin (Real.log x)

/-- JavaScript division of two finite reals, keeping track of the
non-finite results (`0/0 = NaN`, `x/0 = ±Infinity`). -/
def jsDivR (x y : ℝ) : JSNum :=
  if y = 0 then (if x = 0 then .nan else if 0 < x then .posInf else .negInf)
  else .fin (x / y)

/-! ### DistributionMath: `erf`, `normalCDF`, `normalInverse`

Embedded from `src/utils/statisticalCalculations.ts` (the same `erf` /
`normalCDF` bodies are repeated verbatim inside the calculator components). -/

/-- The Abramowitz–Stegun polynomial
`((((a5*t + a4)*t + a3)*t + a2)*t + a1` from the source `erf`. -/
def erfPoly (t : ℝ) : ℝ :=
  ((((1.061405429 * t + -1.453152027) * t) + 1.421413741) * t + -0.284496736) * t
    + 0.254829592

/-- `erf` from `statisticalCalculations.ts`: `sign = x >= 0 ? 1 : -1`,
`x := |x|`, `t = 1/(1 + 0.3275911*x)`,
`y = 1 - poly(t) * t * exp(-x*x)`, result `sign * y`. -/
def erf (x : ℝ) : ℝ :=
  (if 0 ≤ x then (1 : ℝ) else -1) *
    (1 - erfPoly (1 / (1 + 0.3275911 * |x|)) * (1 / (1 + 0.3275911 * |x|))
      * Real.exp (-(|x| * |x|)))

/-- `normalCDF(x) = 0.5 * (1 + erf(x / sqrt 2))` from the source. -/
def normalCDF (x : ℝ) : ℝ := 0.5 * (1 + erf (x / Real.sqrt 2))

/-- Central-branch rational approximation of the Acklam `normalInverse`
(`statisticalCalculations.ts`, branch `pLow ≤ p ≤ pHigh`):
`q = p - 0.5`, `r = q*q`,
`x = (((((a1*r+a2)*r+a3)*r+a4)*r+a5)*r+a6)*q / (((((b1*r+b2)*r+b3)*r+b4)*r+b5)*r+1)`. -/
def acklamCentral (p : ℝ) : ℝ :=
  (((((-39.69683028665376 * ((p - 0.5) * (p - 0.5)) + 220.9460984245205)
        * ((p - 0.5) * (p - 0.5)) + -275.9285104469687)
        * ((p - 0.5) * (p - 0.5)) + 138.3577518672690)
        * ((p - 0.5) * (p - 0.5)) + -30.66479806614716)
        * ((p - 0.5) * (p - 0.5)) + 2.506628277459239) * (p - 0.5)
    / (((((-54.47609879822406 * ((p - 0.5) * (p - 0.5)) + 161.5858368580409)
        * ((p - 0.5) * (p - 0.5)) + -155.6989798598866)
        * ((p - 0.5) * (p - 0.5)) + 66.80131188771972)
        * ((p - 0.5) * (p - 0.5)) + -13.28068155288572)
        * ((p - 0.5) * (p - 0.5)) + 1)

/-- Tail-branch numerator polynomial of the Acklam `normalInverse`,
`((((c1*q + c2)*q + c3)*q + c4)*q + c5)*q + c6`, over `JSNum` because the
source computes it on `q = sqrt(-2*log p)` which is non-finite for `p ≤ 0`. -/
def acklamNum (q : JSNum) : JSNum :=
  .add (.mul (.add (.mul (.add (.mul (.add (.mul (.add
    (.mul (.fin (-0.007784894002430293)) q) (.fin (-0.3223964580411365))) q)
    (.fin (-2.400758277161838))) q) (.fin (-2.549732539343734))) q)
    (.fin 4.374664141464968)) q) (.fin 2.938163982698783)

/-- Tail-branch denominator polynomial of the Acklam `normalInverse`,
`(((d1*q + d2)*q + d3)*q + d4)*q + 1`, over `JSNum`. -/
def acklamDen (q : JSNum) : JSNum :=
  .add (.mul (.add (.mul (.add (.mul (.add
    (.mul (.fin 0.007784695709041462) q) (.fin 0.3224671290700398)) q)
    (.fin 2.445134137142996)) q) (.fin 3.754408661907416)) q) (.fin 1)

/-- `pLow = 0.02425` from the Acklam `normalInverse`. -/
def pLow : ℝ := 0.02425

/-- `normalInverse` from `statisticalCalculations.ts` (Acklam approximation),
with JavaScript non-finite semantics in the tail branches:
for `p < pLow` the source computes `q = sqrt(-2*log p)` and the rational
tail; for `pLow ≤ p ≤ 1 - pLow` the central rational approximation (finite);
for `p > 1 - pLow` the mirrored tail on `1 - p`.  There is no domain guard. -/
def normalInverseAcklam (p : ℝ) : JSNum :=
  if p < pLow then
    JSNum.div (acklamNum (JSNum.sqrt (JSNum.mul (.fin (-2)) (jsLog p))))
      (acklamDen (JSNum.sqrt (JSNum.mul (.fin (-2)) (jsLog p))))
  else if p ≤ 1 - pLow then
    .fin (acklamCentral p)
  else
    JSNum.neg
      (JSNum.div (acklamNum (JSNum.sqrt (JSNum.mul (.fin (-2)) (jsLog (1 - p)))))
        (acklamDen (JSNum.sqrt (JSNum.mul (.fin (-2)) (jsLog (1 - p))))))

/-- `normalInverse` from `SequentialTestingCalculator` (part_000, lines 68-84):
clamps `p ≤ 0` to `-Infinity`, `p ≥ 1` to `+Infinity`, returns exactly `0`
at `p = 0.5`, and otherwise evaluates a two-coefficient rational
approximation on `r = min p (1-p)`. -/
def normalInverseSeq (p : ℝ) : JSNum :=
  if p ≤ 0 then .negInf
  else if 1 ≤ p then .posInf
  else if p = 0.5 then .fin 0
  else
    .fin ((if p < 0.5 then (-1 : ℝ) else 1) *
      (Real.sqrt (-2 * Real.log (if p < 0.5 then p else 1 - p)) -
        ((220.9460984245205 + -39.69683028665376 *
            Real.sqrt (-2 * Real.log (if p < 0.5 then p else 1 - p))) /
          (1 + -54.47609879822406 *
              Real.sqrt (-2 * Real.log (if p < 0.5 then p else 1 - p)) +
            161.5858368580409 *
              Real.sqrt (-2 * Real.log (if p < 0.5 then p else 1 - p)) *
              Real.sqrt (-2 * Real.log (if p < 0.5 then p else 1 - p))))))

/-! ### Sample-size helper and Bonferroni adjustment
(`src/utils/statisticalCalculations.ts`, used by `ExperimentDesigner`). -/

/-- The `z_beta` lookup in `calculateSampleSize`:
`power === 80 ? 0.84 : power === 90 ? 1.28 : 0.67`. -/
def zBetaLookup (power : ℝ) : ℝ :=
  if power = 80 then 0.84 else if power = 90 then 1.28 else 0.67

/-- `calculateSampleSize(baselineRate, effectSize, power, alpha)` from
`statisticalCalculations.ts`: `p1 = baselineRate/100`,
`p2 = p1*(1 + effectSize/100)`, `z_alpha = 1.96` (a constant — the `alpha`
parameter is never read), `z_beta` by exact-match lookup on `power`,
`pooledP = (p1+p2)/2`, and the closed-form two-proportion formula rounded up
with `Math.ceil`. -/
def calculateSampleSize (baselineRate effectSize power alpha : ℝ) : ℝ :=
  ((⌈(1.96 * Real.sqrt (2 * ((baselineRate / 100 + baselineRate / 100 * (1 + effectSize / 100)) / 2)
        * (1 - (baselineRate / 100 + baselineRate / 100 * (1 + effectSize / 100)) / 2))
      + zBetaLookup power * Real.sqrt (baselineRate / 100 * (1 - baselineRate / 100)
        + baselineRate / 100 * (1 + effectSize / 100)
          * (1 - baselineRate / 100 * (1 + effectSize / 100)))) ^ 2
    / (baselineRate / 100 * (1 + effectSize / 100) - baselineRate / 100) ^ 2⌉ : ℤ) : ℝ)

/-- `calculateBonferroniAdjustment(numComparisons, alpha) = alpha / numComparisons`. -/
def calculateBonferroniAdjustment (numComparisons alpha : ℝ) : ℝ :=
  alpha / numComparisons

/-! ### MultiVariantDesigner (`src/components/ExperimentDesigner.tsx`)

Only the fields read by `performDesignAnalysis` are modelled
(the remaining `ExperimentConfig` fields — name, description, hypothesis,
metrics, segmentation, … — are UI strings that the analysis never touches).
JavaScript object maps are modelled as functions `String → Option ℝ`. -/

structure ExperimentVariant where
  id : String
  trafficAllocation : ℝ
  expectedConversionRate : ℝ
  isControl : Bool

structure ExperimentConfig where
  variants : List ExperimentVariant
  power : ℝ
  significance : ℝ
  totalTrafficAllocation : ℝ

structure DesignAnalysis where
  totalSampleSize : ℝ
  sampleSizePerVariant : String → Option ℝ
  expectedDuration : ℝ
  powerAnalysis : String → Option ℝ
  multipleComparisonsAdjustment : ℝ
  estimatedCost : ℝ

/-- JavaScript property assignment `m[k] = v` on an object map. -/
def jsSet (m : String → Option ℝ) (k : String) (v : ℝ) : String → Option ℝ :=
  fun k' => if k' = k then some v else m k'

/-- The all-zero `DesignAnalysis` returned by `performDesignAnalysis` when no
control variant exists. -/
def zeroDesignAnalysis : DesignAnalysis :=
  ⟨0, fun _ => none, 0, fun _ => none, 0, 0⟩

/-- One step of the `treatmentVariants.forEach` loop of
`performDesignAnalysis`: computes the relative effect vs. the control's rate,
calls `calculateSampleSize`, records the size under the variant's and the
control's ids, records the target power, and updates the running maximum. -/
def designStep (controlVariant : ExperimentVariant) (power adjustedAlpha : ℝ)
    (acc : (String → Option ℝ) × (String → Option ℝ) × ℝ)
    (variant : ExperimentVariant) :
    (String → Option ℝ) × (String → Option ℝ) × ℝ :=
  (jsSet (jsSet acc.1 variant.id
      (calculateSampleSize controlVariant.expectedConversionRate
        |((variant.expectedConversionRate - controlVariant.expectedConversionRate)
            / controlVariant.expectedConversionRate) * 100|
        power adjustedAlpha))
      controlVariant.id
      (calculateSampleSize controlVariant.expectedConversionRate
        |((variant.expectedConversionRate - controlVariant.expectedConversionRate)
            / controlVariant.expectedConversionRate) * 100|
        power adjustedAlpha),
    jsSet acc.2.1 variant.id power,
    max acc.2.2
      (calculateSampleSize controlVariant.expectedConversionRate
        |((variant.expectedConversionRate - controlVariant.expectedConversionRate)
            / controlVariant.expectedConversionRate) * 100|
        power adjustedAlpha))

/-- `performDesignAnalysis` from `ExperimentDesigner.tsx` (lines 21-68):
if no variant `isControl`, returns the all-zero analysis; otherwise takes the
FIRST control found, filters the non-control variants, computes
`alpha = (100 - significance)/100`, `adjustedAlpha = alpha/numComparisons`,
runs the per-variant loop, and scales
`totalSampleSize = maxSampleSize * numberOfVariants / (totalTrafficAllocation/100)`,
`expectedDuration = ceil(total/dailyTraffic)`, `estimatedCost = total * costPerVisitor`.
No check for multiple controls or for the traffic allocations summing to 100. -/
def performDesignAnalysis (config : ExperimentConfig)
    (dailyTraffic costPerVisitor : ℝ) : DesignAnalysis :=
  match config.variants.find? (fun v => v.isControl) with
  | none => zeroDesignAnalysis
  | some controlVariant =>
      let treatmentVariants := config.variants.filter (fun v => !v.isControl)
      let adjustedAlpha := calculateBonferroniAdjustment
        (treatmentVariants.length : ℝ) ((100 - config.significance) / 100)
      let res := treatmentVariants.foldl
        (designStep controlVariant config.power adjustedAlpha)
        (fun _ => none, fun _ => none, 0)
      let adjustedTotalSample :=
        res.2.2 * (config.variants.length : ℝ) / (config.totalTrafficAllocation / 100)
      { totalSampleSize := adjustedTotalSample
        sampleSizePerVariant := res.1
        expectedDuration := ((⌈adjustedTotalSample / dailyTraffic⌉ : ℤ) : ℝ)
        powerAnalysis := res.2.1
        multipleComparisonsAdjustment := adjustedAlpha
        estimatedCost := adjustedTotalSample * costPerVisitor }

/-! ### TwoSampleTest (`SignificanceTestCalculator`, part_001) -/

structure SignificanceResult where
  isSignificant : Prop
  pValue : ℝ
  zScore : ℝ
  confidenceInterval : ℝ × ℝ
  effectSize : ℝ
  relativeImprovement : ℝ
  conversionRateA : ℝ
  conversionRateB : ℝ
  standardError : ℝ
  powerAchieved : ℝ

/-- The pooled standard error of `calculateSignificance`:
`sqrt(pooledP*(1-pooledP)*(1/nA + 1/nB))` with
`pooledP = (convA+convB)/(nA+nB)`. -/
def pooledSECalc (visitorsA conversionsA visitorsB conversionsB : ℝ) : ℝ :=
  Real.sqrt ((conversionsA + conversionsB) / (visitorsA + visitorsB)
    * (1 - (conversionsA + conversionsB) / (visitorsA + visitorsB))
    * (1 / visitorsA + 1 / visitorsB))

/-- The unpooled standard error `seForCI` of `calculateSignificance`:
`sqrt(pA(1-pA)/nA + pB(1-pB)/nB)`. -/
def seForCI (visitorsA conversionsA visitorsB conversionsB : ℝ) : ℝ :=
  Real.sqrt (conversionsA / visitorsA * (1 - conversionsA / visitorsA) / visitorsA
    + conversionsB / visitorsB * (1 - conversionsB / visitorsB) / visitorsB)

/-- `calculateSignificance` from `SignificanceTestCalculator` (part_001,
lines 55-104), idealized real semantics (total division).  Note the
confidence interval uses the hard-coded critical value `zCrit = 1.96`
(`// 95% confidence`); `confidenceLevel` is read only for the significance
threshold `alpha = (100 - confidenceLevel)/100`. -/
def calculateSignificance
    (visitorsA conversionsA visitorsB conversionsB confidenceLevel : ℝ) :
    SignificanceResult :=
  { isSignificant :=
      2 * (1 - normalCDF |(conversionsB / visitorsB - conversionsA / visitorsA)
          / pooledSECalc visitorsA conversionsA visitorsB conversionsB|)
        < (100 - confidenceLevel) / 100
    pValue :=
      2 * (1 - normalCDF |(conversionsB / visitorsB - conversionsA / visitorsA)
          / pooledSECalc visitorsA conversionsA visitorsB conversionsB|)
    zScore :=
      (conversionsB / visitorsB - conversionsA / visitorsA)
        / pooledSECalc visitorsA conversionsA visitorsB conversionsB
    confidenceInterval :=
      ((conversionsB / visitorsB - conversionsA / visitorsA
          - 1.96 * seForCI visitorsA conversionsA visitorsB conversionsB) * 100,
        (conversionsB / visitorsB - conversionsA / visitorsA
          + 1.96 * seForCI visitorsA conversionsA visitorsB conversionsB) * 100)
    effectSize :=
      2 * (Real.arcsin (Real.sqrt (conversionsB / visitorsB))
        - Real.arcsin (Real.sqrt (conversionsA / visitorsA)))
    relativeImprovement :=
      if 0 < conversionsA / visitorsA then
        (conversionsB / visitorsB - conversionsA / visitorsA)
          / (conversionsA / visitorsA) * 100
      else 0
    conversionRateA := conversionsA / visitorsA * 100
    conversionRateB := conversionsB / visitorsB * 100
    standardError := pooledSECalc visitorsA conversionsA visitorsB conversionsB
    powerAchieved :=
      max 0 (min 100
        (normalCDF (|(conversionsB / visitorsB - conversionsA / visitorsA)
            / pooledSECalc visitorsA conversionsA visitorsB conversionsB| - 1.96) * 100)) }

/-- The z-score of `calculateSignificance` with JavaScript division
semantics: the source computes `zScore = (pB - pA) / pooledSE` with NO guard
on `pooledSE = 0`, so the degenerate case produces `NaN` (`0/0`). -/
def calculateSignificanceZ (visitorsA conversionsA visitorsB conversionsB : ℝ) :
    JSNum :=
  jsDivR (conversionsB / visitorsB - conversionsA / visitorsA)
    (pooledSECalc visitorsA conversionsA visitorsB conversionsB)

/-! ### SequentialTestingCalculator (part_000) -/

/-- The pooled standard error inside `calculateCurrentZScore`
(part_000, lines 136-146): `n = currentSampleSize/2`,
`pooledP = (controlConversions + treatmentConversions)/currentSampleSize`,
`se = sqrt(pooledP*(1-pooledP)*(2/n))`. -/
def seSeq (currentSampleSize controlConversions treatmentConversions : ℝ) : ℝ :=
  Real.sqrt ((controlConversions + treatmentConversions) / currentSampleSize
    * (1 - (controlConversions + treatmentConversions) / currentSampleSize)
    * (2 / (currentSampleSize / 2)))

/-- `calculateCurrentZScore` from part_000 (lines 136-146): guards
`se === 0` by returning `0`, otherwise `(pTreatment - pControl)/se`. -/
def calculateCurrentZScore
    (currentSampleSize controlConversions treatmentConversions : ℝ) : ℝ :=
  if seSeq currentSampleSize controlConversions treatmentConversions = 0 then 0
  else (treatmentConversions / (currentSampleSize / 2)
      - controlConversions / (currentSampleSize / 2))
    / seSeq currentSampleSize controlConversions treatmentConversions

/-- `getOBrienFlemingBound(t, alpha) = sqrt(-2*log(alpha/2)) / sqrt(t)`
from part_000 (lines 50-53). -/
def getOBrienFlemingBound (t alpha : ℝ) : ℝ :=
  Real.sqrt (-2 * Real.log (alpha / 2)) / Real.sqrt t

structure SequentialBounds where
  upper : ℝ
  lower : ℝ
  futility : ℝ

/-- The decision states of `performSequentialAnalysis`
(`'continue' | 'stop_success' | 'stop_futility' | 'stop_harm'`; the source
string `'continue'` is a Lean keyword, rendered `cont`). -/
inductive Recommendation where
  | cont : Recommendation
  | stop_success : Recommendation
  | stop_futility : Recommendation
  | stop_harm : Recommendation

/-- The decision rule of `performSequentialAnalysis` (part_000, lines
202-210): `z ≥ upper → stop_success`; else `z ≤ lower → stop_harm` if harm
monitoring is enabled, else `continue`; else if futility monitoring is
enabled and `z ≤ futility → stop_futility`; else `continue`. -/
def sequentialDecision (currentZ : ℝ) (bounds : SequentialBounds)
    (enableHarm enableFutility : Bool) : Recommendation :=
  if currentZ ≥ bounds.upper then .stop_success
  else if currentZ ≤ bounds.lower then
    (if enableHarm then .stop_harm else .cont)
  else if enableFutility = true ∧ currentZ ≤ bounds.futility then .stop_futility
  else .cont

/-! ### PowerAnalysisCalculator (second component of `ExperimentDesigner.tsx`) -/

/-- Real-semantics rendition of the Acklam `normalInverse` repeated inside
`PowerAnalysisCalculator` (same branches and coefficients as
`normalInverseAcklam`; used here only on in-range arguments, where all
intermediate values are finite). -/
def normalInverseR (p : ℝ) : ℝ :=
  if p < pLow then
    (((((-0.007784894002430293 * Real.sqrt (-2 * Real.log p) + -0.3223964580411365)
          * Real.sqrt (-2 * Real.log p) + -2.400758277161838)
          * Real.sqrt (-2 * Real.log p) + -2.549732539343734)
          * Real.sqrt (-2 * Real.log p) + 4.374664141464968)
          * Real.sqrt (-2 * Real.log p) + 2.938163982698783)
      / ((((0.007784695709041462 * Real.sqrt (-2 * Real.log p) + 0.3224671290700398)
          * Real.sqrt (-2 * Real.log p) + 2.445134137142996)
          * Real.sqrt (-2 * Real.log p) + 3.754408661907416)
          * Real.sqrt (-2 * Real.log p) + 1)
  else if p ≤ 1 - pLow then acklamCentral p
  else
    -((((((-0.007784894002430293 * Real.sqrt (-2 * Real.log (1 - p)) + -0.3223964580411365)
          * Real.sqrt (-2 * Real.log (1 - p)) + -2.400758277161838)
          * Real.sqrt (-2 * Real.log (1 - p)) + -2.549732539343734)
          * Real.sqrt (-2 * Real.log (1 - p)) + 4.374664141464968)
          * Real.sqrt (-2 * Real.log (1 - p)) + 2.938163982698783)
      / ((((0.007784695709041462 * Real.sqrt (-2 * Real.log (1 - p)) + 0.3224671290700398)
          * Real.sqrt (-2 * Real.log (1 - p)) + 2.445134137142996)
          * Real.sqrt (-2 * Real.log (1 - p)) + 3.754408661907416)
          * Real.sqrt (-2 * Real.log (1 - p)) + 1))

/-- `calculatePower(n, effect, alpha)` from `PowerAnalysisCalculator`
(`ExperimentDesigner.tsx`, lines 426-437), two-tailed configuration:
`p1 = baselineRate/100`, `p2 = p1*(1+effect/100)`, `pooledP = (p1+p2)/2`,
`se = sqrt(pooledP*(1-pooledP)*(2/n))`,
`z_alpha = normalInverse(1 - alpha/2)`,
`z_beta = (|p2-p1| - z_alpha*se)/sqrt((p1(1-p1)+p2(1-p2))/n)`,
result `normalCDF(z_beta)*100`.  `baselineRate` is component state, passed
here as an explicit first argument. -/
def calculatePower (baselineRate n effect alpha : ℝ) : ℝ :=
  normalCDF ((|baselineRate / 100 * (1 + effect / 100) - baselineRate / 100|
      - normalInverseR (1 - alpha / 2)
        * Real.sqrt ((baselineRate / 100 + baselineRate / 100 * (1 + effect / 100)) / 2
          * (1 - (baselineRate / 100 + baselineRate / 100 * (1 + effect / 100)) / 2)
          * (2 / n)))
    / Real.sqrt ((baselineRate / 100 * (1 - baselineRate / 100)
        + baselineRate / 100 * (1 + effect / 100)
          * (1 - baselineRate / 100 * (1 + effect / 100))) / n)) * 100

/-- One iteration body of the bisection loop of `calculateMinimumEffect`
(`ExperimentDesigner.tsx`, lines 459-468): evaluate `calculatePower` at the
bracket midpoint and keep the half in which the target power lies. -/
def minEffectStep (baselineRate n targetPower alpha : ℝ) (s : ℝ × ℝ) : ℝ × ℝ :=
  if calculatePower baselineRate n ((s.1 + s.2) / 2) alpha < targetPower then
    ((s.1 + s.2) / 2, s.2)
  else (s.1, (s.1 + s.2) / 2)

/-- The `while (maxEffect - minEffect > 0.1 && iterations < maxIterations)`
loop of `calculateMinimumEffect`, with the remaining iteration budget as
fuel: the source's `iterations < 50` cap is exactly a fuel of 50. -/
def minEffectLoop (baselineRate n targetPower alpha : ℝ) :
    ℕ → ℝ × ℝ → ℝ × ℝ
  | 0, s => s
  | fuel + 1, s =>
      if s.2 - s.1 > 0.1 then
        minEffectLoop baselineRate n targetPower alpha fuel
          (minEffectStep baselineRate n targetPower alpha s)
      else s

/-- `calculateMinimumEffect(n, targetPower, alpha)` from
`ExperimentDesigner.tsx` (lines 452-472): bisection over the bracket
`[1, 100]` with at most 50 iterations, returning the final bracket midpoint
`(minEffect + maxEffect)/2`. -/
def calculateMinimumEffect (baselineRate n targetPower alpha : ℝ) : ℝ :=
  ((minEffectLoop baselineRate n targetPower alpha 50 (1, 100)).1
    + (minEffectLoop baselineRate n targetPower alpha 50 (1, 100)).2) / 2

/-! ### Concrete experiment designs used in the analyses below -/

/-- A two-variant design (one control at rate 5, one treatment at rate 6,
allocations summing to 100) at 95% significance. -/
def cfgA : ExperimentConfig :=
  ⟨[⟨"control", 50, 5, true⟩, ⟨"treatment", 50, 6, false⟩], 80, 95, 100⟩

/-- The same design as `cfgA` but at 99% significance (so a different
Bonferroni-adjusted alpha). -/
def cfgB : ExperimentConfig :=
  ⟨[⟨"control", 50, 5, true⟩, ⟨"treatment", 50, 6, false⟩], 80, 99, 100⟩

/-- A design with no control variant. -/
def cfgNoControl : ExperimentConfig :=
  ⟨[⟨"treatment", 100, 5, false⟩], 80, 95, 100⟩

/-- An invalid design: traffic allocations sum to 80, not 100. -/
def cfgInvalidTraffic : ExperimentConfig :=
  ⟨[⟨"control", 50, 5, true⟩, ⟨"treatment", 30, 6, false⟩], 80, 95, 80⟩

end ABTest

namespace ABTest

/-! ## Theorems -/

/-- C6: the decision rule of `performSequentialAnalysis` — `z ≥ upper` gives
`stop_success`; otherwise `z ≤ lower` gives `stop_harm` when harm monitoring
is enabled and `continue` when disabled; otherwise `stop_futility` exactly
when futility monitoring is enabled and `z ≤ futility`; otherwise
`continue`.  In particular `z = 3` with `upper < 3` gives `stop_success`
regardless of the lower and futility bounds. -/
theorem sequentialDecision_rule (z : ℝ) (b : SequentialBounds)
    (harm fut : Bool) :
    (b.upper ≤ z → sequentialDecision z b harm fut = .stop_success)
    ∧ (z < b.upper → z ≤ b.lower →
        sequentialDecision z b harm fut = (if harm then .stop_harm else .cont))
    ∧ (z < b.upper → b.lower < z → fut = true → z ≤ b.futility →
        sequentialDecision z b harm fut = .stop_futility)
    ∧ (z < b.upper → b.lower < z → ¬(fut = true ∧ z ≤ b.futility) →
        sequentialDecision z b harm fut = .cont)
    ∧ (z = 3 → b.upper < 3 → sequentialDecision z b harm fut = .stop_success) := by
  refine ⟨fun h => ?_, fun h1 h2 => ?_, fun h1 h2 h3 h4 => ?_,
    fun h1 h2 h3 => ?_, fun hz hub => ?_⟩
  · rw [sequentialDecision, if_pos h]
  · rw [sequentialDecision, if_neg (not_le.mpr h1), if_pos h2]
  · rw [sequentialDecision, if_neg (not_le.mpr h1), if_neg (not_le.mpr h2),
      if_pos ⟨h3, h4⟩]
  · rw [sequentialDecision, if_neg (not_le.mpr h1), if_neg (not_le.mpr h2),
      if_neg h3]
  · subst hz
    rw [sequentialDecision, if_pos (le_of_lt hub)]

/-- Witness for C6: `z = 3` against bounds `upper = 2.5`, `lower = -2.5`,
`futility = -1`, harm disabled, futility enabled, stops for success. -/
theorem sequentialDecision_rule_witness :
    sequentialDecision 3 ⟨2.5, -2.5, -1⟩ false true = .stop_success :=
  (sequentialDecision_rule 3 ⟨2.5, -2.5, -1⟩ false true).2.2.2.2 rfl
    (by norm_num)

/-- C7: the O'Brien–Fleming upper boundary
`sqrt(-2 ln(alpha/2))/sqrt t` is strictly decreasing in the information
fraction `t` for every `alpha ∈ (0,1)`. -/
theorem obrienFleming_strict_anti (alpha t1 t2 : ℝ) (h0 : 0 < alpha)
    (h1 : alpha < 1) (ht0 : 0 < t1) (ht : t1 < t2) (ht2 : t2 ≤ 1) :
    getOBrienFlemingBound t2 alpha < getOBrienFlemingBound t1 alpha := by
  have hlog : Real.log (alpha / 2) < 0 := Real.log_neg (by linarith) (by linarith)
  have hK : 0 < Real.sqrt (-2 * Real.log (alpha / 2)) :=
    Real.sqrt_pos.mpr (by linarith)
  have hs1 : 0 < Real.sqrt t1 := Real.sqrt_pos.mpr ht0
  have hs2 : 0 < Real.sqrt t2 := Real.sqrt_pos.mpr (lt_trans ht0 ht)
  have hss : Real.sqrt t1 < Real.sqrt t2 := Real.sqrt_lt_sqrt ht0.le ht
  rw [getOBrienFlemingBound, getOBrienFlemingBound, div_lt_div_iff₀ hs2 hs1]
  exact mul_lt_mul_of_pos_left hss hK

/-- Witness for C7 at `alpha = 1/2`, `t1 = 1/4`, `t2 = 1`. -/
theorem obrienFleming_strict_anti_witness :
    getOBrienFlemingBound 1 (1 / 2) < getOBrienFlemingBound (1 / 4) (1 / 2) :=
  obrienFleming_strict_anti (1 / 2) (1 / 4) 1 (by norm_num) (by norm_num)
    (by norm_num) (by norm_num) (by norm_num)

/-- C10: in the designer's sample-size helper the power quantile is an
exact-match lookup (`80 ↦ 0.84`, `90 ↦ 1.28`, everything else `↦ 0.67`) and
the alpha quantile is the constant `1.96`, so any two target powers outside
`{80, 90}` (and any two alphas at all) give identical required sample sizes. -/
theorem sampleSize_power_lookup :
    zBetaLookup 80 = 0.84 ∧ zBetaLookup 90 = 1.28
    ∧ (∀ p : ℝ, p ≠ 80 → p ≠ 90 → zBetaLookup p = 0.67)
    ∧ ∀ b e a a' p p' : ℝ, p ≠ 80 → p ≠ 90 → p' ≠ 80 → p' ≠ 90 →
        calculateSampleSize b e p a = calculateSampleSize b e p' a' := by
  refine ⟨by norm_num [zBetaLookup], by norm_num [zBetaLookup],
    fun p h1 h2 => by simp [zBetaLookup, h1, h2],
    fun b e a a' p p' h1 h2 h3 h4 => ?_⟩
  simp only [calculateSampleSize, zBetaLookup, if_neg h1, if_neg h2,
    if_neg h3, if_neg h4]

/-- Witness for C10: target powers 70 and 95 (with different alphas, 0.05
and 0.01) give identical sample sizes at baseline 5, effect 20. -/
theorem sampleSize_power_lookup_witness :
    calculateSampleSize 5 20 70 0.05 = calculateSampleSize 5 20 95 0.01 :=
  sampleSize_power_lookup.2.2.2 5 20 0.05 0.01 70 95 (by norm_num)
    (by norm_num) (by norm_num) (by norm_num)

/-- C9 counterexample: the source `erf` is NOT exactly odd at `x = 0` —
its Abramowitz–Stegun coefficients sum to `0.999999999`, so
`erf 0 = 10⁻⁹ ≠ 0`, hence `erf (-0) ≠ -erf 0`. -/
theorem erf_not_odd_at_zero : erf (-(0 : ℝ)) ≠ -erf 0 := by
  norm_num [erf, erfPoly, Real.exp_zero]

/-- C9 as amended: `erf` is exactly odd away from `0`:
`erf (-x) = -erf x` for every `x ≠ 0` (at `x = 0` the approximation has the
constant defect `erf 0 = 10⁻⁹`). -/
theorem erf_odd_off_zero (x : ℝ) (hx : x ≠ 0) : erf (-x) = -erf x := by
  rcases hx.lt_or_lt with h | h
  · rw [erf, erf, if_pos (by linarith : (0 : ℝ) ≤ -x),
      if_neg (not_le.mpr h), abs_neg]
    ring
  · rw [erf, erf, if_neg (not_le.mpr (by linarith : -x < 0)),
      if_pos h.le, abs_neg]
    ring

/-- Witness for the amended C9 at `x = 1`. -/
theorem erf_odd_off_zero_witness : erf (-(1 : ℝ)) = -erf 1 :=
  erf_odd_off_zero 1 (by norm_num)

/-- C3 counterexample: with both arms at 10 visitors and 0 conversions the
pooled standard error of `calculateSignificance` is 0, and its z-score —
computed WITHOUT any guard — is `0/0 = NaN`, not `0`. -/
theorem twoSampleTest_zeroSE_nan :
    pooledSECalc 10 0 10 0 = 0 ∧ calculateSignificanceZ 10 0 10 0 = JSNum.nan := by
  constructor
  · norm_num [pooledSECalc]
  · norm_num [calculateSignificanceZ, jsDivR, pooledSECalc]

/-- C3 as amended: the `SE = 0 → z = 0` guard lives in the sequential
calculator's `calculateCurrentZScore`, which returns `0` whenever its pooled
standard error is `0` (the two-sample test has no such guard). -/
theorem sequential_z_guard (cs cc tc : ℝ) (h : seSeq cs cc tc = 0) :
    calculateCurrentZScore cs cc tc = 0 := by
  rw [calculateCurrentZScore, if_pos h]

/-- Witness for the amended C3: 10 observations, 0 conversions in both arms. -/
theorem sequential_z_guard_witness : calculateCurrentZScore 10 0 0 = 0 :=
  sequential_z_guard 10 0 0 (by norm_num [seSeq])

/-- C4 counterexample: the Acklam `normalInverse` of
`statisticalCalculations.ts` does not clamp: at `p = -1 ≤ 0` it computes
`sqrt(-2*log(-1))`, which is `NaN`, and the NaN propagates to the result. -/
theorem normalInverseAcklam_nan_cex :
    normalInverseAcklam (-1) = JSNum.nan ∧ JSNum.nan ≠ JSNum.negInf := by
  constructor
  · unfold normalInverseAcklam
    rw [if_pos (show (-1 : ℝ) < pLow by norm_num [pLow])]
    rw [show jsLog (-1) = JSNum.nan from by norm_num [jsLog]]
    rfl
  · intro h
    exact JSNum.noConfusion h

/-- C4 as amended: the sequential calculator's `normalInverse` clamps
(`-∞` for `p ≤ 0`, `+∞` for `p ≥ 1`) and returns exactly `0` at `p = 0.5`;
the Acklam `normalInverse` also returns exactly `0` at `p = 0.5` (but has no
domain guard, see the counterexample). -/
theorem normalInverse_clamps :
    (∀ p : ℝ, p ≤ 0 → normalInverseSeq p = JSNum.negInf)
    ∧ (∀ p : ℝ, 1 ≤ p → normalInverseSeq p = JSNum.posInf)
    ∧ normalInverseSeq 0.5 = JSNum.fin 0
    ∧ normalInverseAcklam 0.5 = JSNum.fin 0 := by
  refine ⟨fun p hp => ?_, fun p hp => ?_, ?_, ?_⟩
  · rw [normalInverseSeq, if_pos hp]
  · rw [normalInverseSeq, if_neg (by linarith : ¬ p ≤ 0), if_pos hp]
  · norm_num [normalInverseSeq]
  · rw [normalInverseAcklam, if_neg (show ¬ (0.5 : ℝ) < pLow by norm_num [pLow]),
      if_pos (show (0.5 : ℝ) ≤ 1 - pLow by norm_num [pLow])]
    norm_num [acklamCentral]

/-- Witness for the amended C4 at `p = 0` and `p = 1`. -/
theorem normalInverse_clamps_witness :
    normalInverseSeq 0 = JSNum.negInf ∧ normalInverseSeq 1 = JSNum.posInf :=
  ⟨normalInverse_clamps.1 0 le_rfl, normalInverse_clamps.2.1 1 le_rfl⟩

/-- C2 as amended: the confidence interval of `calculateSignificance` always
has width `2 * 1.96 * seForCI * 100` — the critical value is the hard-coded
95% constant `1.96`, and the interval does not depend on the requested
confidence level at all. -/
theorem significance_ci_fixed_width (vA cA vB cB lvl lvl' : ℝ) :
    (calculateSignificance vA cA vB cB lvl).confidenceInterval.2
      - (calculateSignificance vA cA vB cB lvl).confidenceInterval.1
      = 2 * 1.96 * seForCI vA cA vB cB * 100
    ∧ (calculateSignificance vA cA vB cB lvl).confidenceInterval
      = (calculateSignificance vA cA vB cB lvl').confidenceInterval := by
  constructor
  · simp only [calculateSignificance]
    ring
  · rfl

/-- C2 counterexample: for control 1000/50 and treatment 1000/60, the
confidence intervals at the 90% and 99% levels are literally identical,
although the levels differ — the interval's width does not change with the
requested confidence level. -/
theorem significance_ci_ignores_level_cex :
    (90 : ℝ) ≠ 99
    ∧ (calculateSignificance 1000 50 1000 60 90).confidenceInterval
      = (calculateSignificance 1000 50 1000 60 99).confidenceInterval :=
  ⟨by norm_num, rfl⟩

/-- Helper: once the bracket width is at most `0.1`, the bisection loop of
`calculateMinimumEffect` stops immediately, whatever fuel remains. -/
theorem minEffectLoop_of_width_le (b n tp a : ℝ) (fuel : ℕ) (s : ℝ × ℝ)
    (h : s.2 - s.1 ≤ 0.1) : minEffectLoop b n tp a fuel s = s := by
  cases fuel with
  | zero => rfl
  | succ k =>
      simp only [minEffectLoop]
      rw [if_neg (not_lt.mpr h)]

/-- Helper: each bisection step of `calculateMinimumEffect` halves the
bracket width exactly. -/
theorem minEffectStep_width (b n tp a : ℝ) (s : ℝ × ℝ) :
    (minEffectStep b n tp a s).2 - (minEffectStep b n tp a s).1
      = (s.2 - s.1) / 2 := by
  rw [minEffectStep]
  split_ifs <;> simp <;> ring

/-- Helper: if the bracket width is at most `0.1 * 2^k`, the bisection loop
stabilizes after `k` iterations: any extra fuel is never consumed. -/
theorem minEffectLoop_stable (b n tp a : ℝ) :
    ∀ (k m : ℕ) (s : ℝ × ℝ), s.2 - s.1 ≤ 0.1 * 2 ^ k →
      minEffectLoop b n tp a (k + m) s = minEffectLoop b n tp a k s := by
  intro k
  induction k with
  | zero =>
      intro m s h
      rw [Nat.zero_add, minEffectLoop_of_width_le b n tp a m s (by linarith)]
      rfl
  | succ k ih =>
      intro m s h
      by_cases hw : s.2 - s.1 > 0.1
      · have e1 : minEffectLoop b n tp a (k + 1 + m) s
            = minEffectLoop b n tp a (k + m) (minEffectStep b n tp a s) := by
          rw [show k + 1 + m = (k + m) + 1 by omega]
          simp only [minEffectLoop]
          rw [if_pos hw]
        have e2 : minEffectLoop b n tp a (k + 1) s
            = minEffectLoop b n tp a k (minEffectStep b n tp a s) := by
          simp only [minEffectLoop]
          rw [if_pos hw]
        rw [e1, e2]
        apply ih
        rw [minEffectStep_width]
        rw [pow_succ] at h
        linarith
      · push_neg at hw
        rw [minEffectLoop_of_width_le b n tp a _ s hw,
          minEffectLoop_of_width_le b n tp a _ s hw]

/-- C8: `calculateMinimumEffect` always terminates: since each iteration
halves the bracket `[1, 100]` (width 99) and `99 ≤ 0.1 * 2^10`, the loop
stops within 10 iterations — well inside the source's 50-iteration cap —
and the result is the midpoint of the final bracket; moreover the loop stops
immediately (with any fuel) once the bracket width is at most `0.1`. -/
theorem minimumEffect_terminates (b n tp a : ℝ) :
    calculateMinimumEffect b n tp a
      = ((minEffectLoop b n tp a 10 (1, 100)).1
          + (minEffectLoop b n tp a 10 (1, 100)).2) / 2
    ∧ ∀ (fuel : ℕ) (s : ℝ × ℝ), s.2 - s.1 ≤ 0.1 →
        minEffectLoop b n tp a fuel s = s := by
  constructor
  · rw [calculateMinimumEffect,
      show (50 : ℕ) = 10 + 40 from rfl,
      minEffectLoop_stable b n tp a 10 40 (1, 100) (by norm_num)]
  · exact fun fuel s h => minEffectLoop_of_width_le b n tp a fuel s h

/-- Witness for C8: a bracket of width `0.05 ≤ 0.1` is returned unchanged. -/
theorem minimumEffect_terminates_witness :
    minEffectLoop 5 1000 80 0.05 7 (1, 1.05) = (1, 1.05) :=
  (minimumEffect_terminates 5 1000 80 0.05).2 7 (1, 1.05) (by norm_num)

/-- C1 as amended: whenever a control variant exists, the designer computes
and REPORTS `adjustedAlpha = alpha / numberOfNonControlVariants`
(Bonferroni) in the `multipleComparisonsAdjustment` field — but
`calculateSampleSize` never reads its alpha argument (`z_alpha` is the
hard-coded constant `1.96`), so the per-variant sample sizes are invariant
under any change of the adjusted alpha. -/
theorem designer_bonferroni_reported :
    (∀ (cfg : ExperimentConfig) (dt cpv : ℝ) (ctl : ExperimentVariant),
      cfg.variants.find? (fun v => v.isControl) = some ctl →
      (performDesignAnalysis cfg dt cpv).multipleComparisonsAdjustment
        = ((100 - cfg.significance) / 100)
          / ((cfg.variants.filter fun v => !v.isControl).length : ℝ))
    ∧ ∀ b e pw a a' : ℝ,
        calculateSampleSize b e pw a = calculateSampleSize b e pw a' := by
  constructor
  · intro cfg dt cpv ctl h
    unfold performDesignAnalysis
    rw [h]
    rfl
  · intro b e pw a a'
    rfl

/-- Witness for the amended C1: the design `cfgA` (one treatment, 95%
significance) reports adjusted alpha `0.05/1`. -/
theorem designer_bonferroni_reported_witness :
    (performDesignAnalysis cfgA 1000 0.5).multipleComparisonsAdjustment
      = ((100 - cfgA.significance) / 100)
        / ((cfgA.variants.filter fun v => !v.isControl).length : ℝ) :=
  designer_bonferroni_reported.1 cfgA 1000 0.5 ⟨"control", 50, 5, true⟩ rfl

/-- C1 counterexample: `cfgA` and `cfgB` differ only in significance (95%
vs. 99%), so their Bonferroni-adjusted alphas differ — yet the designer
returns literally identical total and per-variant sample sizes, because the
adjusted alpha never enters the sample-size formula. -/
theorem designer_alpha_no_effect_cex :
    (performDesignAnalysis cfgA 1000 0.5).multipleComparisonsAdjustment
      ≠ (performDesignAnalysis cfgB 1000 0.5).multipleComparisonsAdjustment
    ∧ (performDesignAnalysis cfgA 1000 0.5).totalSampleSize
      = (performDesignAnalysis cfgB 1000 0.5).totalSampleSize
    ∧ (performDesignAnalysis cfgA 1000 0.5).sampleSizePerVariant
      = (performDesignAnalysis cfgB 1000 0.5).sampleSizePerVariant := by
  refine ⟨?_, rfl, rfl⟩
  have eA : (performDesignAnalysis cfgA 1000 0.5).multipleComparisonsAdjustment
      = calculateBonferroniAdjustment ((1 : ℕ) : ℝ) ((100 - 95) / 100) := rfl
  have eB : (performDesignAnalysis cfgB 1000 0.5).multipleComparisonsAdjustment
      = calculateBonferroniAdjustment ((1 : ℕ) : ℝ) ((100 - 99) / 100) := rfl
  rw [eA, eB]
  norm_num [calculateBonferroniAdjustment]

/-- C5 as amended: the zero-valued sentinel analysis is produced exactly in
the no-control case — whenever `find?` locates no control variant,
`performDesignAnalysis` returns the all-zero `DesignAnalysis`. -/
theorem designer_no_control_sentinel (cfg : ExperimentConfig) (dt cpv : ℝ)
    (h : cfg.variants.find? (fun v => v.isControl) = none) :
    performDesignAnalysis cfg dt cpv = zeroDesignAnalysis := by
  unfold performDesignAnalysis
  rw [h]

/-- Witness for the amended C5: a one-variant design with no control. -/
theorem designer_no_control_sentinel_witness :
    performDesignAnalysis cfgNoControl 1000 0.5 = zeroDesignAnalysis :=
  designer_no_control_sentinel cfgNoControl 1000 0.5 rfl

/-- C5 counterexample: `cfgInvalidTraffic` has traffic allocations summing
to 80 ≠ 100, yet `performDesignAnalysis` neither fails nor returns the
zero sentinel: it returns a fully computed analysis with strictly positive
total sample size. -/
theorem designer_invalid_traffic_cex :
    ((cfgInvalidTraffic.variants.map fun v => v.trafficAllocation).sum ≠ 100)
    ∧ 0 < (performDesignAnalysis cfgInvalidTraffic 1000 0.5).totalSampleSize := by
  refine ⟨by norm_num [cfgInvalidTraffic], ?_⟩
  have e : (performDesignAnalysis cfgInvalidTraffic 1000 0.5).totalSampleSize
      = max 0 (calculateSampleSize 5 |(6 - 5) / 5 * 100| 80
          (calculateBonferroniAdjustment ((1 : ℕ) : ℝ) ((100 - 95) / 100)))
        * ((2 : ℕ) : ℝ) / (80 / 100) := rfl
  have habs : |(6 - 5) / 5 * 100| = (20 : ℝ) := by norm_num
  have hpos : ∀ a : ℝ, 0 < calculateSampleSize 5 20 80 a := by
    intro a
    rw [calculateSampleSize,
      show zBetaLookup 80 = 0.84 from by norm_num [zBetaLookup]]
    exact Int.cast_pos.mpr (Int.ceil_pos.mpr (by positivity))
  rw [e, habs]
  exact div_pos
    (mul_pos (lt_max_of_lt_right (hpos _)) (by norm_num)) (by norm_num)

end ABTest
